import Mathlib

/-!
Shallow embedding of the face-recognition core of the
`face-recognition-api` repository.

Python floats are modelled as rationals (`ℚ`); byte strings as `List ℕ`;
Python exceptions as an explicit error type returned through `Except`.
External library calls (OpenCV measurements, the InsightFace detector,
scipy's cosine distance, numpy's norm, Fernet, json, base64) are modelled
as abstract inputs or function parameters: the code under verification is
the repository's own control flow and arithmetic, which is translated
line by line from `app/services/face_recognition_service.py`,
`app/services/encryption_service.py`, `app/modules/user/service.py` and
`app/modules/auth/router.py`.
-/

deriving instance DecidableEq for Except

namespace FaceRec

/-- `FaceQuality` enum from `face_recognition_service.py` (lines 27-33). -/
inductive FaceQuality where
  | excellent
  | good
  | acceptable
  | poor
deriving DecidableEq, Repr

/-- Numeric value of each `FaceQuality` member, as in the source enum. -/
def FaceQuality.value : FaceQuality → ℤ
  | .excellent => 95
  | .good => 80
  | .acceptable => 65
  | .poor => 50

/-- `SecurityLevel` enum from `face_recognition_service.py` (lines 36-42). -/
inductive SecurityLevel where
  | very_high
  | high
  | medium
  | low
deriving DecidableEq, Repr

/-- Numeric value of each `SecurityLevel` member (0.25 / 0.35 / 0.45 / 0.55). -/
def SecurityLevel.value : SecurityLevel → ℚ
  | .very_high => 1/4
  | .high => 7/20
  | .medium => 9/20
  | .low => 11/20

/-- The exceptions the pipeline can signal.  The first four model the
`FaceRecognitionError` subclasses of `face_recognition_service.py`;
`dimensionMismatch` models the `ValueError` raised by `compare_faces`
on an embedding-size mismatch (the spec's `DimensionMismatchError`);
`valueError` models every other `ValueError`. -/
inductive PyErr where
  | noFaceDetected
  | multipleFaces
  | lowQualityFace
  | spoofingDetected
  | dimensionMismatch (n1 n2 : ℕ)
  | valueError
deriving DecidableEq, Repr

/-- Whether an error is one of the four face-specific kinds caught by
`UserService.authenticate_with_face` and by the auth router handlers. -/
def PyErr.faceSpecific : PyErr → Bool
  | .noFaceDetected => true
  | .multipleFaces => true
  | .lowQualityFace => true
  | .spoofingDetected => true
  | .dimensionMismatch _ _ => false
  | .valueError => false

/-! ## Embedding comparison (`FaceRecognitionService.compare_faces`) -/

/-- Result dictionary of `compare_faces` (lines 463-470 of
`face_recognition_service.py`).  The `security_level` entry of the dict
holds the enum member's name; we store the member itself. -/
structure CompareResult where
  is_match : Bool
  similarity : ℚ
  euclidean_distance : ℚ
  threshold : ℚ
  confidence : ℚ
  security_level : SecurityLevel
deriving DecidableEq, Repr

/-- `FaceRecognitionService.compare_faces` (lines 425-470).
`cosineDist` models `scipy.spatial.distance.cosine` and `euclideanNorm`
models `np.linalg.norm`, both external numeric library routines; the
elementwise difference fed to the norm is concrete.  The `ValueError`
raised on a size mismatch is modelled by `PyErr.dimensionMismatch`. -/
def compare_faces (cosineDist : List ℚ → List ℚ → ℚ) (euclideanNorm : List ℚ → ℚ)
    (embedding1 embedding2 : List ℚ) (security_level : SecurityLevel) :
    Except PyErr CompareResult :=
  if embedding1.length ≠ embedding2.length then
    .error (.dimensionMismatch embedding1.length embedding2.length)
  else
    let similarity : ℚ := 1 - cosineDist embedding1 embedding2
    let euclidean_dist : ℚ := euclideanNorm (List.zipWith (fun a b => a - b) embedding1 embedding2)
    let threshold : ℚ := security_level.value
    let is_match : Bool := decide (1 - threshold < similarity)
    let confidence : ℚ := min 100 (max 0 ((similarity - 3/10) / (7/10) * 100))
    .ok ⟨is_match, similarity, euclidean_dist, threshold, confidence, security_level⟩

/-! ## Image quality gate (`FaceRecognitionService._check_image_quality`) -/

/-- The cv2-measured properties of a loaded image (BGR pixel buffer):
its shape and the grayscale statistics computed by `_check_image_quality`.
The measurements themselves come from OpenCV/numpy and are abstract
inputs; the comparisons against thresholds are the repository's code. -/
structure ImageObs where
  height : ℕ
  width : ℕ
  mean_brightness : ℚ
  contrast : ℚ
  blur_score : ℚ
deriving DecidableEq, Repr

/-- The boolean part of the dictionary returned by `_check_image_quality`
(lines 214-226); the raw metrics are carried by `ImageObs`. -/
structure QualityReport where
  resolution_ok : Bool
  brightness_ok : Bool
  contrast_ok : Bool
  sharpness_ok : Bool
  overall_ok : Bool
deriving DecidableEq, Repr

/-- `FaceRecognitionService._check_image_quality` (lines 185-226):
resolution ≥ 200 on both sides, 30 < mean brightness < 225,
contrast std > 20, Laplacian variance > 10; `overall_ok` is the
conjunction of all four. -/
def check_image_quality (img : ImageObs) : QualityReport :=
  let resolution_ok : Bool := decide (200 ≤ img.height ∧ 200 ≤ img.width)
  let brightness_ok : Bool := decide (30 < img.mean_brightness ∧ img.mean_brightness < 225)
  let contrast_ok : Bool := decide (20 < img.contrast)
  let sharpness_ok : Bool := decide (10 < img.blur_score)
  ⟨resolution_ok, brightness_ok, contrast_ok, sharpness_ok,
    resolution_ok && brightness_ok && contrast_ok && sharpness_ok⟩

/-! ## Liveness heuristic (`FaceRecognitionService._detect_liveness`) -/

/-- Normalization of one bound of a Python step-1 slice `a:b` over an
axis of length `n` (negative indices count from the end, then both are
clamped to `[0, n]`). -/
def sliceIndex (n : ℕ) (i : ℤ) : ℕ :=
  if i < 0 then (max (i + n) 0).toNat else min i.toNat n

/-- Length of the Python slice `a:b` of an axis of length `n`;
`img[y1:y2, x1:x2]` has `.size == 0` iff one of its two slice lengths
is zero. -/
def sliceLen (n : ℕ) (a b : ℤ) : ℕ :=
  sliceIndex n b - sliceIndex n a

/-- The dictionaries returned by `_detect_liveness` (and the literal
`{"liveness_check": False}` in `detect_face`), with `Option` for keys
that are present only on some paths. -/
structure LivenessReport where
  liveness_check : Bool
  is_live : Option Bool
  risk_level : Option String
  color_variety : Option ℚ
  edge_density : Option ℚ
deriving DecidableEq, Repr

/-- cv2 measurements over the (non-empty) face crop used by
`_detect_liveness`: mean per-channel HSV standard deviation and Canny
edge density.  Abstract inputs, like the other OpenCV quantities. -/
structure LivenessObs where
  color_variety : ℚ
  edge_density : ℚ
deriving DecidableEq, Repr

/-- `FaceRecognitionService._detect_liveness` (lines 228-280).
The face crop `img[y1:y2, x1:x2]` is empty exactly when one of the two
slices is empty; on that branch the code returns
`{"liveness_check": False, "risk_level": "high", "reason": "empty_face"}`
(note `liveness_check` is `False` and no `is_live` key is present).
Otherwise `is_live = color_variety > 15 and edge_density > 0.05` and the
risk level is `"low"`/`"medium"`. -/
def detect_liveness (use_mediapipe : Bool) (img : ImageObs) (obs : LivenessObs)
    (bbox : ℤ × ℤ × ℤ × ℤ) : LivenessReport :=
  if !use_mediapipe then ⟨false, none, some "unknown", none, none⟩
  else
    if sliceLen img.height bbox.2.1 bbox.2.2.2 = 0 ∨ sliceLen img.width bbox.1 bbox.2.2.1 = 0 then
      ⟨false, none, some "high", none, none⟩
    else
      let is_live : Bool := decide (15 < obs.color_variety ∧ 1/20 < obs.edge_density)
      ⟨true, some is_live, some (if is_live then "low" else "medium"),
        some obs.color_variety, some obs.edge_density⟩

/-! ## Quality scorer (`FaceRecognitionService._calculate_face_quality_score`) -/

/-- The attributes of an InsightFace face object used by `detect_face`
and the scorer: detection score, integer bounding box
(`face.bbox.astype(int)`, as `(x1, y1, x2, y2)`), optional pose angles
and the L2-normalized embedding. -/
structure Face where
  det_score : ℚ
  bbox : ℤ × ℤ × ℤ × ℤ
  pose : Option (ℚ × ℚ × ℚ)
  normed_embedding : List ℚ
deriving DecidableEq, Repr

/-- `FaceRecognitionService._calculate_face_quality_score` (lines 282-329):
start at 100, subtract the penalties in source order, clamp to [0,100]. -/
def calculate_face_quality_score (face : Face) (image_quality : QualityReport)
    (liveness : LivenessReport) : ℤ :=
  let score : ℤ := 100
  let score : ℤ :=
    if face.det_score < 9/10 then score - 10
    else if face.det_score < 95/100 then score - 5
    else score
  let score : ℤ := if !image_quality.resolution_ok then score - 20 else score
  let score : ℤ := if !image_quality.brightness_ok then score - 15 else score
  let score : ℤ := if !image_quality.contrast_ok then score - 10 else score
  let score : ℤ := if !image_quality.sharpness_ok then score - 15 else score
  let score : ℤ :=
    if liveness.liveness_check && !(liveness.is_live.getD true) then score - 20 else score
  let score : ℤ :=
    match face.pose with
    | some p => if 30 < |p.1| ∨ 30 < |p.2.1| ∨ 30 < |p.2.2| then score - 10 else score
    | none => score
  max 0 (min 100 score)

/-! ## Detection orchestrator (`FaceRecognitionService.detect_face`) -/

/-- One observable pipeline event: a call into the InsightFace detector
(`self.app.get`) or into the liveness heuristic. -/
inductive Event where
  | detector_call
  | liveness_call
deriving DecidableEq, Repr

/-- The parts of the result dictionary of `detect_face` (lines 403-423)
that the verified claims are about. -/
structure DetectResult where
  quality_score : ℤ
  detection_confidence : ℚ
  bbox : ℤ × ℤ × ℤ × ℤ
  embedding : List ℚ
  image_quality : QualityReport
  liveness : LivenessReport
deriving DecidableEq, Repr

/-- The abstract inputs of one `detect_face` call: the cv2 measurements
of the successfully loaded image, the face list the InsightFace detector
would return for it, and the cv2 measurements of the first face's crop
(used only if the liveness heuristic reaches its non-empty branch). -/
structure DetectInput where
  img : ImageObs
  faces : List Face
  liveness_obs : LivenessObs
deriving DecidableEq, Repr

/-- The tail of `detect_face` from the quality-score computation on
(lines 390-423): compute the score, raise `LowQualityFaceError` when it
is strictly below the requested tier, otherwise build the result. -/
def detect_face_finish (face : Face) (image_quality : QualityReport)
    (min_quality : FaceQuality) (events : List Event) (liveness : LivenessReport) :
    List Event × Except PyErr DetectResult :=
  let quality_score := calculate_face_quality_score face image_quality liveness
  if quality_score < min_quality.value then
    (events, .error .lowQualityFace)
  else
    (events, .ok ⟨quality_score, face.det_score, face.bbox, face.normed_embedding,
      image_quality, liveness⟩)

/-- `FaceRecognitionService.detect_face` (lines 331-423), instrumented
with the list of detector/liveness calls it performs.  The control flow
follows the source line by line: image-quality gate first (raising
`LowQualityFaceError` before the detector is invoked), then detection,
the zero/multiple-face checks, the liveness step with its spoofing
escalation, and `detect_face_finish` for the scoring tail. -/
def detect_face_run (use_mediapipe : Bool) (input : DetectInput)
    (min_quality : FaceQuality) (check_liveness : Bool) (allow_multiple_faces : Bool) :
    List Event × Except PyErr DetectResult :=
  let image_quality := check_image_quality input.img
  if !image_quality.overall_ok then
    ([], .error .lowQualityFace)
  else
    match input.faces with
    | [] => ([Event.detector_call], .error .noFaceDetected)
    | face :: rest =>
      if !rest.isEmpty && !allow_multiple_faces then
        ([Event.detector_call], .error .multipleFaces)
      else
        if check_liveness then
          let liveness := detect_liveness use_mediapipe input.img input.liveness_obs face.bbox
          if liveness.liveness_check && !(liveness.is_live.getD true)
              && (liveness.risk_level == some "high") then
            ([Event.detector_call, Event.liveness_call], .error .spoofingDetected)
          else
            detect_face_finish face image_quality min_quality
              [Event.detector_call, Event.liveness_call] liveness
        else
          detect_face_finish face image_quality min_quality
            [Event.detector_call] ⟨false, none, none, none, none⟩

/-- The result of `detect_face` without the instrumentation trace. -/
def detect_face (use_mediapipe : Bool) (input : DetectInput)
    (min_quality : FaceQuality) (check_liveness : Bool) (allow_multiple_faces : Bool) :
    Except PyErr DetectResult :=
  (detect_face_run use_mediapipe input min_quality check_liveness allow_multiple_faces).2

/-! ## User service (`app/modules/user/service.py`) -/

/-- The slice of the verification dictionary returned by
`UserService.verify_face` (built by `FaceRecognitionService.verify_face`,
lines 517-526) that its callers inspect: the `verified` flag and the
comparator confidence. -/
structure Verification where
  verified : Bool
  confidence : ℚ
deriving DecidableEq, Repr

/-- The fields of the `User` record read by the biometric paths. -/
structure UserRec where
  id : ℕ
  email : String
  face_enrolled : Bool
  face_embedding_encrypted : Option String
deriving DecidableEq, Repr

/-- Python truthiness of the `face_embedding_encrypted` column
(`None` and the empty string are falsy). -/
def truthyStr : Option String → Bool
  | none => false
  | some s => !s.isEmpty

/-- `UserService.authenticate_with_face` (lines 215-263 of
`app/modules/user/service.py`).  The database lookup `get_by_email` and
the composed `self.verify_face(user.id, ...)` call are parameters; the
method's own control flow is concrete: missing services raise
`ValueError`, an unknown or unenrolled user yields `None`, the four
face-specific error kinds are caught and collapsed to `None`, any other
exception propagates, and the user is returned only on `verified`. -/
def authenticate_with_face (services_configured : Bool)
    (get_by_email : String → Option UserRec)
    (verify_face : UserRec → Except PyErr Verification)
    (email : String) : Except PyErr (Option UserRec) :=
  if !services_configured then .error .valueError
  else
    match get_by_email email with
    | none => .ok none
    | some user =>
      if !user.face_enrolled || !(truthyStr user.face_embedding_encrypted) then .ok none
      else
        match verify_face user with
        | .ok verification => if verification.verified then .ok (some user) else .ok none
        | .error e => if e.faceSpecific then .ok none else .error e

/-! ## Face-login endpoint (`app/modules/auth/router.py`, `face_login`) -/

/-- The `detail` payloads of the HTTP responses `face_login` can produce,
with their varying parts kept as data: `faceVerificationFailed e` models
the 400 detail string `f"Face verification failed: {str(e)}"` (embedding
the specific error's message) and `faceAuthFailed c` models the 401
detail embedding the computed confidence percentage. -/
inductive Detail where
  | provideOne
  | provideOnlyOne
  | userNotFound
  | faceNotEnrolled
  | faceAuthFailed (confidence : ℚ)
  | confidenceTooLow (confidence : ℚ)
  | faceVerificationFailed (e : PyErr)
  | faceLoginFailed
deriving DecidableEq, Repr

/-- An `HTTPException(status_code=..., detail=...)`. -/
structure HTTPError where
  status_code : ℕ
  detail : Detail
deriving DecidableEq, Repr

/-- `face_login` (lines 234-348 of `app/modules/auth/router.py`).
`has_base64`/`has_file` are the truthiness of the two image form fields;
`get_by_email` and the `user_service.verify_face` call are parameters.
The endpoint's own control flow is concrete: the exactly-one-image
check, the user/enrollment 401s, the `verified` check (401 with
confidence), the additional 80% confidence floor (401), the four
face-specific error kinds mapped to 400 with the error's message, and
all other exceptions mapped to 500.  On success it returns the user it
issues the token for. -/
def face_login (get_by_email : String → Option UserRec)
    (verify_face : UserRec → Except PyErr Verification)
    (email : String) (has_base64 : Bool) (has_file : Bool) :
    Except HTTPError UserRec :=
  if !has_base64 && !has_file then .error ⟨400, .provideOne⟩
  else if has_base64 && has_file then .error ⟨400, .provideOnlyOne⟩
  else
    match get_by_email email with
    | none => .error ⟨401, .userNotFound⟩
    | some user =>
      if !user.face_enrolled then .error ⟨401, .faceNotEnrolled⟩
      else
        match verify_face user with
        | .error e =>
          if e.faceSpecific then .error ⟨400, .faceVerificationFailed e⟩
          else .error ⟨500, .faceLoginFailed⟩
        | .ok v =>
          if !v.verified then .error ⟨401, .faceAuthFailed v.confidence⟩
          else if v.confidence < 80 then .error ⟨401, .confidenceTooLow v.confidence⟩
          else .ok user

/-! ## Encryption service (`app/services/encryption_service.py`) -/

/-- `EncryptionService.encrypt_embedding` (lines 27-44):
`base64.b64encode(self.cipher.encrypt(json.dumps(embedding).encode()))`.
The three library routines (json, Fernet, base64) are parameters over
byte strings (`List ℕ`); the utf-8 `encode`/`decode` steps between `str`
and `bytes` are identities on the byte level and are folded into them. -/
def encrypt_embedding (fernet_encrypt : List ℕ → List ℕ)
    (json_dumps : List ℚ → List ℕ) (b64encode : List ℕ → List ℕ)
    (embedding : List ℚ) : List ℕ :=
  b64encode (fernet_encrypt (json_dumps embedding))

/-- `EncryptionService.decrypt_embedding` (lines 46-63):
`json.loads(self.cipher.decrypt(base64.b64decode(encrypted)))`. -/
def decrypt_embedding (fernet_decrypt : List ℕ → List ℕ)
    (json_loads : List ℕ → List ℚ) (b64decode : List ℕ → List ℕ)
    (encrypted_embedding : List ℕ) : List ℚ :=
  json_loads (fernet_decrypt (b64decode encrypted_embedding))

/-! ## Base64 input handling (`FaceRecognitionService._load_image`, str branch) -/

/-- CPython `str.split(sep)` for a single-character separator:
splits on **every** occurrence of `sep` (no maxsplit). -/
def pySplit (sep : Char) : List Char → List (List Char)
  | [] => [[]]
  | c :: cs =>
    if c = sep then [] :: pySplit sep cs
    else
      match pySplit sep cs with
      | [] => [[c]]
      | t :: ts => (c :: t) :: ts

/-- The data-URL stripping step of `_load_image`'s base64 branch
(lines 167-169): `if "," in image_input: image_input = image_input.split(",")[1]`.
The resulting string is what is handed to `base64.b64decode`. -/
def load_image_payload (s : List Char) : List Char :=
  if ',' ∈ s then ((pySplit ',' s).drop 1).headD [] else s

/-! ## Spec-side restatements (for refinement comparisons) -/

/-- The quality-score formula as the spec states it: 100 minus the sum
of the penalties (confidence band, four image-quality penalties,
liveness checked-and-not-live, extreme pose), clamped to [0,100].
Written from the spec's words, to be compared with
`calculate_face_quality_score`. -/
def spec_quality_score (face : Face) (iq : QualityReport) (liv : LivenessReport) : ℤ :=
  max 0 (min 100 (100
    - (if face.det_score < 9/10 then 10 else if face.det_score < 95/100 then 5 else 0)
    - (if iq.resolution_ok then 0 else 20)
    - (if iq.brightness_ok then 0 else 15)
    - (if iq.contrast_ok then 0 else 10)
    - (if iq.sharpness_ok then 0 else 15)
    - (if liv.liveness_check = true ∧ liv.is_live = some false then 20 else 0)
    - (match face.pose with
       | some p => if 30 < |p.1| ∨ 30 < |p.2.1| ∨ 30 < |p.2.2| then 10 else 0
       | none => 0)))

/-- The base64 payload as the spec describes it: everything after the
first comma (commas included).  Written from the spec's words, to be
compared with `load_image_payload`. -/
def spec_payload (s : List Char) : List Char :=
  (s.dropWhile (fun c => c ≠ ',')).drop 1

/-! ## Helper lemmas -/

/-- On equal-length embeddings `compare_faces` succeeds, and every field
of its result is determined by the cosine distance and the level. -/
theorem compare_faces_ok (cd : List ℚ → List ℚ → ℚ) (en : List ℚ → ℚ)
    (a b : List ℚ) (lvl : SecurityLevel) (h : a.length = b.length) :
    compare_faces cd en a b lvl =
      .ok ⟨decide (1 - lvl.value < 1 - cd a b), 1 - cd a b,
        en (List.zipWith (fun x y => x - y) a b), lvl.value,
        min 100 (max 0 ((1 - cd a b - 3/10) / (7/10) * 100)), lvl⟩ := by
  unfold compare_faces
  simp [h]

/-- Inversion: a successful comparison forces equal lengths and the
canonical result record. -/
theorem compare_faces_ok_inv (cd : List ℚ → List ℚ → ℚ) (en : List ℚ → ℚ)
    (a b : List ℚ) (lvl : SecurityLevel) (r : CompareResult)
    (h : compare_faces cd en a b lvl = .ok r) :
    a.length = b.length ∧
      r = ⟨decide (1 - lvl.value < 1 - cd a b), 1 - cd a b,
        en (List.zipWith (fun x y => x - y) a b), lvl.value,
        min 100 (max 0 ((1 - cd a b - 3/10) / (7/10) * 100)), lvl⟩ := by
  by_cases hlen : a.length = b.length
  · refine ⟨hlen, ?_⟩
    rw [compare_faces_ok cd en a b lvl hlen] at h
    exact (Except.ok.injEq _ _ ▸ h).symm
  · rw [show compare_faces cd en a b lvl
        = .error (.dimensionMismatch a.length b.length) from by
      unfold compare_faces; simp [hlen]] at h
    exact absurd h (by simp)

/-- The rescaled confidence is monotone in the similarity. -/
theorem confidence_mono (s t : ℚ) (h : s ≤ t) :
    min 100 (max 0 ((s - 3/10) / (7/10) * 100))
      ≤ min 100 (max 0 ((t - 3/10) / (7/10) * 100)) := by
  refine min_le_min le_rfl (max_le_max le_rfl ?_)
  have h1 : s - 3/10 ≤ t - 3/10 := sub_le_sub_right h (3/10)
  have h2 : (s - 3/10) / (7/10) ≤ (t - 3/10) / (7/10) :=
    (div_le_div_iff_of_pos_right (by norm_num)).mpr h1
  exact mul_le_mul_of_nonneg_right h2 (by norm_num)

/-- A guarded subtraction step equals subtracting a guarded penalty. -/
theorem ite_sub_left (c : Prop) [Decidable c] (x k : ℤ) :
    (if c then x - k else x) = x - (if c then k else 0) := by
  split <;> simp

/-- The two-tier detection-confidence step equals subtracting the
two-tier penalty. -/
theorem ite_sub_det (c1 c2 : Prop) [Decidable c1] [Decidable c2] (x k1 k2 : ℤ) :
    (if c1 then x - k1 else x - (if c2 then k2 else 0))
      = x - (if c1 then k1 else if c2 then k2 else 0) := by
  split <;> rfl

/-- A penalty guarded by a negated flag equals one guarded by the flag
with the branches swapped. -/
theorem not_ite_eq (b : Bool) (k : ℤ) :
    (if (!b) = true then k else 0) = (if b = true then 0 else k) := by
  cases b <;> simp

/-- The code's liveness-penalty guard (`liveness_check` truthy and
`is_live` defaulting to true when absent) coincides with "checked and
not live". -/
theorem liveness_cond_iff (lc : Bool) (il : Option Bool) :
    (lc && !(il.getD true)) = true ↔ (lc = true ∧ il = some false) := by
  cases lc <;> rcases il with _ | b <;> try cases b
  all_goals simp

/-- The spoofing-escalation guard of `detect_face` is satisfied by no
report `_detect_liveness` can produce: the only report carrying
`risk_level = "high"` (the empty-crop one) has `liveness_check = False`
and lacks the `is_live` key, and every checked report has risk
`"low"`/`"medium"`. -/
theorem detect_liveness_guard_false (u : Bool) (img : ImageObs) (obs : LivenessObs)
    (bbox : ℤ × ℤ × ℤ × ℤ) :
    ((detect_liveness u img obs bbox).liveness_check
      && !((detect_liveness u img obs bbox).is_live.getD true)
      && ((detect_liveness u img obs bbox).risk_level == some "high")) = false := by
  unfold detect_liveness
  split
  · simp
  · split
    · simp
    · cases h : decide (15 < obs.color_variety ∧ 1/20 < obs.edge_density) <;> simp [h]

/-- The scoring tail never signals `SpoofingDetectedError`. -/
theorem detect_face_finish_ne_spoofing (face : Face) (iq : QualityReport)
    (mq : FaceQuality) (events : List Event) (liv : LivenessReport) :
    (detect_face_finish face iq mq events liv).2 ≠ .error .spoofingDetected := by
  unfold detect_face_finish
  dsimp only
  split <;> simp

/-- The scoring tail signals `LowQualityFaceError` exactly when the
quality score is strictly below the requested tier. -/
theorem detect_face_finish_low_iff (face : Face) (iq : QualityReport)
    (mq : FaceQuality) (events : List Event) (liv : LivenessReport) :
    ((detect_face_finish face iq mq events liv).2 = .error .lowQualityFace
      ↔ calculate_face_quality_score face iq liv < mq.value) := by
  unfold detect_face_finish
  dsimp only
  split
  · simpa using ‹_›
  · rename_i h
    simp [h]

/-- When the gate passes, a single (or allowed-multiple) face is found,
`detect_face` reduces to the scoring tail with the liveness report of
the branch taken: the spoofing escalation never fires. -/
theorem detect_face_run_eq (u : Bool) (input : DetectInput) (mq : FaceQuality)
    (cl am : Bool) (face : Face) (rest : List Face)
    (hf : input.faces = face :: rest)
    (hq : (check_image_quality input.img).overall_ok = true)
    (hm : (!rest.isEmpty && !am) = false) :
    detect_face_run u input mq cl am =
      detect_face_finish face (check_image_quality input.img) mq
        (if cl then [Event.detector_call, Event.liveness_call] else [Event.detector_call])
        (if cl then detect_liveness u input.img input.liveness_obs face.bbox
          else ⟨false, none, none, none, none⟩) := by
  simp only [detect_face_run, hf, hq, hm]
  cases cl
  · simp
  · rw [detect_liveness_guard_false]
    simp

/-- `detect_face` can never signal `SpoofingDetectedError`: the
escalation guard is unreachable. -/
theorem detect_face_run_ne_spoofing (u : Bool) (input : DetectInput)
    (mq : FaceQuality) (cl am : Bool) :
    (detect_face_run u input mq cl am).2 ≠ .error .spoofingDetected := by
  cases hq : (check_image_quality input.img).overall_ok
  · simp [detect_face_run, hq]
  · cases hf : input.faces with
    | nil => simp [detect_face_run, hq, hf]
    | cons face rest =>
      cases hm : (!rest.isEmpty && !am)
      · rw [detect_face_run_eq u input mq cl am face rest hf hq hm]
        exact detect_face_finish_ne_spoofing _ _ _ _ _
      · simp [detect_face_run, hq, hf, hm]

/-! ## Claim C1 -/

/-- C1: contrary to the claim, `detect_face` can never fail with
`SpoofingDetectedError` — in particular it does not fail on a report
with risk level "high".  The only liveness report carrying
`risk_level = "high"` (the empty-crop one) has `liveness_check = False`
and no `is_live` key, so the escalation guard is unreachable; at the
concrete degenerate-bbox input below the report is high-risk yet the
pipeline returns success with a full quality score. -/
theorem claim_C1 :
    (∀ (u : Bool) (input : DetectInput) (mq : FaceQuality) (cl am : Bool),
        detect_face u input mq cl am ≠ .error .spoofingDetected)
    ∧ detect_liveness true ⟨480, 640, 100, 50, 100⟩ ⟨20, 1/10⟩ (10, 10, 10, 10)
        = ⟨false, none, some "high", none, none⟩
    ∧ detect_face true
        ⟨⟨480, 640, 100, 50, 100⟩, [⟨99/100, (10, 10, 10, 10), none, [1, 0]⟩], ⟨20, 1/10⟩⟩
        .acceptable true false
      = .ok ⟨100, 99/100, (10, 10, 10, 10), [1, 0], ⟨true, true, true, true, true⟩,
          ⟨false, none, some "high", none, none⟩⟩ := by
  refine ⟨fun u input mq cl am => ?_, ?_, ?_⟩
  · exact detect_face_run_ne_spoofing u input mq cl am
  · with_unfolding_all decide
  · with_unfolding_all decide

/-! ## Claim C3 -/

/-- C3: whenever the image-quality report has `overall_ok = false`,
`detect_face` fails with `LowQualityFaceError` and the detector-call
trace is empty; conversely the detector is only ever invoked after the
quality gate passed. -/
theorem claim_C3 :
    (∀ (u : Bool) (input : DetectInput) (mq : FaceQuality) (cl am : Bool),
      (check_image_quality input.img).overall_ok = false →
        detect_face_run u input mq cl am = ([], .error .lowQualityFace)
        ∧ (detect_face_run u input mq cl am).1.count .detector_call = 0)
    ∧ (∀ (u : Bool) (input : DetectInput) (mq : FaceQuality) (cl am : Bool),
      Event.detector_call ∈ (detect_face_run u input mq cl am).1 →
        (check_image_quality input.img).overall_ok = true) := by
  have key : ∀ (u : Bool) (input : DetectInput) (mq : FaceQuality) (cl am : Bool),
      (check_image_quality input.img).overall_ok = false →
      detect_face_run u input mq cl am = ([], .error .lowQualityFace) := by
    intro u input mq cl am h
    simp [detect_face_run, h]
  constructor
  · intro u input mq cl am h
    refine ⟨key u input mq cl am h, ?_⟩
    rw [key u input mq cl am h]
    rfl
  · intro u input mq cl am h
    cases hq : (check_image_quality input.img).overall_ok
    · rw [key u input mq cl am hq] at h
      simp at h
    · rfl

/-- Witness for C3 at a concrete 100×100 image (resolution gate fails). -/
theorem claim_C3_witness :
    (check_image_quality (⟨100, 100, 100, 50, 100⟩ : ImageObs)).overall_ok = false
    ∧ detect_face_run true
        ⟨⟨100, 100, 100, 50, 100⟩, [⟨99/100, (10, 10, 90, 90), none, [1, 0]⟩], ⟨20, 1/10⟩⟩
        .acceptable true false
      = ([], .error .lowQualityFace)
    ∧ (detect_face_run true
        ⟨⟨100, 100, 100, 50, 100⟩, [⟨99/100, (10, 10, 90, 90), none, [1, 0]⟩], ⟨20, 1/10⟩⟩
        .acceptable true false).1.count .detector_call = 0 := by
  have h : (check_image_quality (⟨100, 100, 100, 50, 100⟩ : ImageObs)).overall_ok = false := by
    with_unfolding_all decide
  exact ⟨h, (claim_C3.1 true
    ⟨⟨100, 100, 100, 50, 100⟩, [⟨99/100, (10, 10, 90, 90), none, [1, 0]⟩], ⟨20, 1/10⟩⟩
    .acceptable true false h).1,
    (claim_C3.1 true
    ⟨⟨100, 100, 100, 50, 100⟩, [⟨99/100, (10, 10, 90, 90), none, [1, 0]⟩], ⟨20, 1/10⟩⟩
    .acceptable true false h).2⟩

/-! ## Claim C4 -/

/-- C4: the quality score equals 100 minus exactly the spec's penalties,
clamped to [0,100] (refinement against `spec_quality_score`, written
from the spec's words); the four tiers have values 95/80/65/50; and —
once the image gate has passed and a face has been accepted — a
`detect_face` call fails with `LowQualityFaceError` exactly when the
score of the detected face is strictly below the requested tier. -/
theorem claim_C4 :
    (∀ (face : Face) (iq : QualityReport) (liv : LivenessReport),
        calculate_face_quality_score face iq liv = spec_quality_score face iq liv)
    ∧ (FaceQuality.excellent.value = 95 ∧ FaceQuality.good.value = 80
        ∧ FaceQuality.acceptable.value = 65 ∧ FaceQuality.poor.value = 50)
    ∧ (∀ (u : Bool) (input : DetectInput) (mq : FaceQuality) (cl am : Bool)
        (face : Face) (rest : List Face),
        input.faces = face :: rest →
        (check_image_quality input.img).overall_ok = true →
        (!rest.isEmpty && !am) = false →
        (detect_face u input mq cl am = .error .lowQualityFace
          ↔ calculate_face_quality_score face (check_image_quality input.img)
              (if cl then detect_liveness u input.img input.liveness_obs face.bbox
                else ⟨false, none, none, none, none⟩) < mq.value)) := by
  refine ⟨?_, ⟨rfl, rfl, rfl, rfl⟩, ?_⟩
  · intro face iq liv
    rcases face with ⟨ds, bb, pose, emb⟩
    rcases liv with ⟨lc, il, rl, cv, ed⟩
    unfold calculate_face_quality_score spec_quality_score
    dsimp only
    cases pose <;>
      simp only [ite_sub_det, ite_sub_left, not_ite_eq, liveness_cond_iff, sub_zero]
  · intro u input mq cl am face rest hf hq hm
    unfold detect_face
    rw [detect_face_run_eq u input mq cl am face rest hf hq hm]
    exact detect_face_finish_low_iff _ _ _ _ _

/-- Witness for C4: a face with detection score 0.5 on a clean image
scores 90 and fails the EXCELLENT (95) tier. -/
theorem claim_C4_witness :
    (⟨⟨480, 640, 100, 50, 100⟩, [⟨1/2, (10, 10, 200, 200), none, [1, 0]⟩],
        ⟨20, 1/10⟩⟩ : DetectInput).faces
      = ⟨1/2, (10, 10, 200, 200), none, [1, 0]⟩ :: []
    ∧ (check_image_quality (⟨480, 640, 100, 50, 100⟩ : ImageObs)).overall_ok = true
    ∧ (!(([] : List Face)).isEmpty && !false) = false
    ∧ (detect_face true
        ⟨⟨480, 640, 100, 50, 100⟩, [⟨1/2, (10, 10, 200, 200), none, [1, 0]⟩], ⟨20, 1/10⟩⟩
        .excellent false false
        = .error .lowQualityFace
      ↔ calculate_face_quality_score ⟨1/2, (10, 10, 200, 200), none, [1, 0]⟩
          (check_image_quality ⟨480, 640, 100, 50, 100⟩)
          (if false then detect_liveness true ⟨480, 640, 100, 50, 100⟩ ⟨20, 1/10⟩
              (10, 10, 200, 200)
            else ⟨false, none, none, none, none⟩)
          < FaceQuality.excellent.value) := by
  have hq : (check_image_quality (⟨480, 640, 100, 50, 100⟩ : ImageObs)).overall_ok = true := by
    with_unfolding_all decide
  exact ⟨rfl, hq, rfl, claim_C4.2.2 true
    ⟨⟨480, 640, 100, 50, 100⟩, [⟨1/2, (10, 10, 200, 200), none, [1, 0]⟩], ⟨20, 1/10⟩⟩
    .excellent false false ⟨1/2, (10, 10, 200, 200), none, [1, 0]⟩ [] rfl hq rfl⟩

/-! ## Claim C2 -/

/-- C2: for every pair of embeddings of unequal length, `compare_faces`
fails with the dimension-mismatch error at every security level, and it
never produces a comparison result (no silent truncation or padding). -/
theorem claim_C2 :
    ∀ (cd : List ℚ → List ℚ → ℚ) (en : List ℚ → ℚ) (a b : List ℚ) (lvl : SecurityLevel),
      a.length ≠ b.length →
      compare_faces cd en a b lvl = .error (.dimensionMismatch a.length b.length)
      ∧ ∀ r : CompareResult, compare_faces cd en a b lvl ≠ .ok r := by
  intro cd en a b lvl h
  have he : compare_faces cd en a b lvl = .error (.dimensionMismatch a.length b.length) := by
    unfold compare_faces
    simp [h]
  exact ⟨he, fun r hr => by rw [he] at hr; exact absurd hr (by simp)⟩

/-- Witness for C2 at the concrete pair `[1]` / `[1, 0]`. -/
theorem claim_C2_witness :
    ([(1:ℚ)].length ≠ [(1:ℚ), 0].length)
    ∧ compare_faces (fun _ _ => 0) (fun _ => 0) [1] [1, 0] .low
        = .error (.dimensionMismatch 1 2)
    ∧ ∀ r : CompareResult,
        compare_faces (fun _ _ => 0) (fun _ => 0) [1] [1, 0] .low ≠ .ok r := by
  have h := claim_C2 (fun _ _ => 0) (fun _ => 0) [1] [1, 0] .low (by decide)
  exact ⟨by decide, h.1, h.2⟩

/-! ## Claim C5 -/

/-- C5: every successful comparison result carries
`confidence = clamp((similarity - 0.3) / 0.7 * 100, 0, 100)`, the
confidence always lies in [0, 100], and the confidence is monotonically
non-decreasing in the similarity. -/
theorem claim_C5 :
    (∀ (cd : List ℚ → List ℚ → ℚ) (en : List ℚ → ℚ) (a b : List ℚ)
        (lvl : SecurityLevel) (r : CompareResult),
      compare_faces cd en a b lvl = .ok r →
        r.confidence = min 100 (max 0 ((r.similarity - 3/10) / (7/10) * 100))
        ∧ 0 ≤ r.confidence ∧ r.confidence ≤ 100)
    ∧ (∀ (cd cd' : List ℚ → List ℚ → ℚ) (en en' : List ℚ → ℚ) (a b a' b' : List ℚ)
        (lvl lvl' : SecurityLevel) (r r' : CompareResult),
      compare_faces cd en a b lvl = .ok r →
      compare_faces cd' en' a' b' lvl' = .ok r' →
      r.similarity ≤ r'.similarity → r.confidence ≤ r'.confidence) := by
  constructor
  · intro cd en a b lvl r h
    obtain ⟨-, hr⟩ := compare_faces_ok_inv cd en a b lvl r h
    subst hr
    refine ⟨rfl, ?_, ?_⟩
    · exact le_min (by norm_num) (le_max_left 0 _)
    · exact min_le_left _ _
  · intro cd cd' en en' a b a' b' lvl lvl' r r' h h' hs
    obtain ⟨-, hr⟩ := compare_faces_ok_inv cd en a b lvl r h
    obtain ⟨-, hr'⟩ := compare_faces_ok_inv cd' en' a' b' lvl' r' h'
    subst hr; subst hr'
    exact confidence_mono _ _ hs

/-- Witness for C5 at two concrete comparisons with similarities 0 and 1. -/
theorem claim_C5_witness :
    compare_faces (fun _ _ => 1) (fun _ => 0) [1, 0] [1, 0] .medium
      = .ok ⟨false, 0, 0, 9/20, 0, .medium⟩
    ∧ ((⟨false, 0, 0, 9/20, 0, .medium⟩ : CompareResult).confidence
        = min 100 (max 0 (((⟨false, 0, 0, 9/20, 0, .medium⟩ : CompareResult).similarity - 3/10)
            / (7/10) * 100))
      ∧ 0 ≤ (⟨false, 0, 0, 9/20, 0, .medium⟩ : CompareResult).confidence
      ∧ (⟨false, 0, 0, 9/20, 0, .medium⟩ : CompareResult).confidence ≤ 100)
    ∧ compare_faces (fun _ _ => 0) (fun _ => 0) [1, 0] [1, 0] .medium
        = .ok ⟨true, 1, 0, 9/20, 100, .medium⟩
    ∧ (⟨false, 0, 0, 9/20, 0, .medium⟩ : CompareResult).similarity
        ≤ (⟨true, 1, 0, 9/20, 100, .medium⟩ : CompareResult).similarity
    ∧ (⟨false, 0, 0, 9/20, 0, .medium⟩ : CompareResult).confidence
        ≤ (⟨true, 1, 0, 9/20, 100, .medium⟩ : CompareResult).confidence := by
  have h0 : compare_faces (fun _ _ => 1) (fun _ => 0) [1, 0] [1, 0] .medium
      = .ok ⟨false, 0, 0, 9/20, 0, .medium⟩ := by with_unfolding_all decide
  have h1 : compare_faces (fun _ _ => 0) (fun _ => 0) [1, 0] [1, 0] .medium
      = .ok ⟨true, 1, 0, 9/20, 100, .medium⟩ := by with_unfolding_all decide
  have hs : (⟨false, 0, 0, 9/20, 0, .medium⟩ : CompareResult).similarity
      ≤ (⟨true, 1, 0, 9/20, 100, .medium⟩ : CompareResult).similarity := by
    with_unfolding_all decide
  exact ⟨h0, claim_C5.1 _ _ _ _ _ _ h0, h1, hs,
    claim_C5.2 _ _ _ _ _ _ _ _ _ _ _ _ h0 h1 hs⟩

/-! ## Claim C6 -/

/-- C6: every successful comparison has `threshold` equal to the level's
enum value (VERY_HIGH 0.25, HIGH 0.35, MEDIUM 0.45, LOW 0.55) and
`is_match = (similarity > 1 - t)`; consequently, on the same embedding
pair, a VERY_HIGH match implies a LOW match. -/
theorem claim_C6 :
    (∀ (cd : List ℚ → List ℚ → ℚ) (en : List ℚ → ℚ) (a b : List ℚ)
        (lvl : SecurityLevel) (r : CompareResult),
      compare_faces cd en a b lvl = .ok r →
        r.threshold = lvl.value
        ∧ (r.is_match = true ↔ 1 - lvl.value < r.similarity))
    ∧ (SecurityLevel.very_high.value = 1/4 ∧ SecurityLevel.high.value = 7/20
        ∧ SecurityLevel.medium.value = 9/20 ∧ SecurityLevel.low.value = 11/20)
    ∧ (∀ (cd : List ℚ → List ℚ → ℚ) (en : List ℚ → ℚ) (a b : List ℚ)
        (r1 r2 : CompareResult),
      compare_faces cd en a b .very_high = .ok r1 →
      compare_faces cd en a b .low = .ok r2 →
      r1.is_match = true → r2.is_match = true) := by
  refine ⟨?_, ⟨rfl, rfl, rfl, rfl⟩, ?_⟩
  · intro cd en a b lvl r h
    obtain ⟨-, hr⟩ := compare_faces_ok_inv cd en a b lvl r h
    subst hr
    exact ⟨rfl, by simp⟩
  · intro cd en a b r1 r2 h1 h2 hm
    obtain ⟨-, hr1⟩ := compare_faces_ok_inv cd en a b .very_high r1 h1
    obtain ⟨-, hr2⟩ := compare_faces_ok_inv cd en a b .low r2 h2
    subst hr1; subst hr2
    simp only [decide_eq_true_eq] at hm ⊢
    have : (1:ℚ) - SecurityLevel.low.value < 1 - SecurityLevel.very_high.value := by
      norm_num [SecurityLevel.value]
    linarith

set_option maxRecDepth 4000 in
/-- Witness for C6 at a concrete pair with similarity 0.9. -/
theorem claim_C6_witness :
    compare_faces (fun _ _ => 1/10) (fun _ => 0) [1, 0] [0, 1] .very_high
      = .ok ⟨true, 9/10, 0, 1/4, 600/7, .very_high⟩
    ∧ compare_faces (fun _ _ => 1/10) (fun _ => 0) [1, 0] [0, 1] .low
        = .ok ⟨true, 9/10, 0, 11/20, 600/7, .low⟩
    ∧ ((⟨true, 9/10, 0, 1/4, 600/7, .very_high⟩ : CompareResult).threshold
          = SecurityLevel.very_high.value
        ∧ ((⟨true, 9/10, 0, 1/4, 600/7, .very_high⟩ : CompareResult).is_match = true
          ↔ 1 - SecurityLevel.very_high.value
              < (⟨true, 9/10, 0, 1/4, 600/7, .very_high⟩ : CompareResult).similarity))
    ∧ ((⟨true, 9/10, 0, 1/4, 600/7, .very_high⟩ : CompareResult).is_match = true
        → (⟨true, 9/10, 0, 11/20, 600/7, .low⟩ : CompareResult).is_match = true) := by
  have h1 : compare_faces (fun _ _ => 1/10) (fun _ => 0) [1, 0] [0, 1] .very_high
      = .ok ⟨true, 9/10, 0, 1/4, 600/7, .very_high⟩ := by with_unfolding_all decide
  have h2 : compare_faces (fun _ _ => 1/10) (fun _ => 0) [1, 0] [0, 1] .low
      = .ok ⟨true, 9/10, 0, 11/20, 600/7, .low⟩ := by with_unfolding_all decide
  exact ⟨h1, h2, claim_C6.1 _ _ _ _ _ _ h1, claim_C6.2.2 _ _ _ _ _ _ h1 h2⟩

/-! ## Claim C7 -/

/-- C7: `authenticate_with_face` swallows each of the four face-specific
error kinds raised by the underlying verification and returns the
generic failure (`None`) instead; it never propagates a face-specific
error to its caller; and it returns a user identity only when that
user's verification returned `verified = true`. -/
theorem claim_C7 :
    (∀ (gbe : String → Option UserRec) (vf : UserRec → Except PyErr Verification)
        (email : String) (u : UserRec) (e : PyErr),
      gbe email = some u → vf u = .error e → e.faceSpecific = true →
        authenticate_with_face true gbe vf email = .ok none)
    ∧ (∀ (cfg : Bool) (gbe : String → Option UserRec)
        (vf : UserRec → Except PyErr Verification) (email : String) (e : PyErr),
      e.faceSpecific = true →
        authenticate_with_face cfg gbe vf email ≠ .error e)
    ∧ (∀ (cfg : Bool) (gbe : String → Option UserRec)
        (vf : UserRec → Except PyErr Verification) (email : String) (u : UserRec),
      authenticate_with_face cfg gbe vf email = .ok (some u) →
        gbe email = some u ∧ ∃ v, vf u = .ok v ∧ v.verified = true) := by
  refine ⟨?_, ?_, ?_⟩
  · intro gbe vf email u e hg hv he
    simp only [authenticate_with_face, Bool.not_true, Bool.false_eq_true, if_false,
      hg, hv, he, if_true]
    split <;> rfl
  · intro cfg gbe vf email e he
    unfold authenticate_with_face
    cases cfg
    · simp only [Bool.not_false, if_true]
      intro h
      have hve : PyErr.valueError = e := by injection h
      rw [← hve] at he
      simp [PyErr.faceSpecific] at he
    · simp only [Bool.not_true, Bool.false_eq_true, if_false]
      cases hg : gbe email with
      | none => simp [hg]
      | some u' =>
        simp only [hg]
        split
        · simp
        · cases hv : vf u' with
          | ok v =>
            simp only [hv]
            split <;> simp
          | error e' =>
            simp only [hv]
            cases hfs : e'.faceSpecific
            · simp only [hfs, Bool.false_eq_true, if_false]
              intro h
              have hee : e' = e := by injection h
              subst hee
              rw [he] at hfs
              cases hfs
            · simp [hfs]
  · intro cfg gbe vf email u h
    unfold authenticate_with_face at h
    cases cfg
    · simp at h
    · simp only [Bool.not_true, Bool.false_eq_true, if_false] at h
      cases hg : gbe email with
      | none => simp only [hg] at h; simp at h
      | some u' =>
        simp only [hg] at h
        split at h
        · simp at h
        · cases hv : vf u' with
          | error e' =>
            simp only [hv] at h
            split at h <;> simp at h
          | ok v =>
            simp only [hv] at h
            split at h
            · rename_i hver
              have huu : u' = u := by
                injection h with h2
                injection h2
              subst huu
              exact ⟨rfl, v, hv, hver⟩
            · simp at h

/-- Witness for C7: a user whose verification raises
`NoFaceDetectedError` is rejected generically, and one whose
verification verifies is returned. -/
theorem claim_C7_witness :
    ((fun _ : String => some (⟨1, "a@b.c", true, some "blob"⟩ : UserRec)) "a@b.c"
        = some (⟨1, "a@b.c", true, some "blob"⟩ : UserRec))
    ∧ PyErr.noFaceDetected.faceSpecific = true
    ∧ authenticate_with_face true
        (fun _ => some ⟨1, "a@b.c", true, some "blob"⟩)
        (fun _ => .error .noFaceDetected) "a@b.c" = .ok none
    ∧ authenticate_with_face true
        (fun _ => some ⟨1, "a@b.c", true, some "blob"⟩)
        (fun _ => .error .noFaceDetected) "a@b.c" ≠ .error .noFaceDetected
    ∧ (authenticate_with_face true
        (fun _ => some ⟨1, "a@b.c", true, some "blob"⟩)
        (fun _ => .ok ⟨true, 95⟩) "a@b.c" = .ok (some ⟨1, "a@b.c", true, some "blob"⟩) →
        (fun _ : String => some (⟨1, "a@b.c", true, some "blob"⟩ : UserRec)) "a@b.c"
            = some ⟨1, "a@b.c", true, some "blob"⟩
          ∧ ∃ v, (fun _ : UserRec => (.ok ⟨true, 95⟩ : Except PyErr Verification))
              (⟨1, "a@b.c", true, some "blob"⟩ : UserRec) = .ok v ∧ v.verified = true) := by
  refine ⟨rfl, rfl, ?_, ?_, ?_⟩
  · exact claim_C7.1 _ _ "a@b.c" ⟨1, "a@b.c", true, some "blob"⟩ .noFaceDetected rfl rfl rfl
  · exact claim_C7.2.1 true _ _ "a@b.c" .noFaceDetected rfl
  · exact fun h => claim_C7.2.2 true _ _ "a@b.c" ⟨1, "a@b.c", true, some "blob"⟩ h

/-! ## Claim C8 -/

/-- C8: given that each library layer round-trips (Fernet decryption
inverts encryption, json parsing inverts serialization, base64 decoding
inverts encoding), `decrypt_embedding` returns exactly the vector that
was passed to `encrypt_embedding`: the service applies the right inverse
layers in the right order and adds no loss of its own. -/
theorem claim_C8 :
    ∀ (fe fd : List ℕ → List ℕ) (dumps : List ℚ → List ℕ) (loads : List ℕ → List ℚ)
      (b64e b64d : List ℕ → List ℕ),
      (∀ bs, fd (fe bs) = bs) →
      (∀ v, loads (dumps v) = v) →
      (∀ bs, b64d (b64e bs) = bs) →
      ∀ v : List ℚ,
        decrypt_embedding fd loads b64d (encrypt_embedding fe dumps b64e v) = v := by
  intro fe fd dumps loads b64e b64d hf hj hb v
  unfold encrypt_embedding decrypt_embedding
  rw [hb, hf, hj]

/-- Witness for C8 with the identity cipher/base64 layers and an
encodable json layer, at the concrete vector `[1/2, 3]`. -/
theorem claim_C8_witness :
    (∀ bs : List ℕ, id (id bs) = bs)
    ∧ (∀ v : List ℚ,
        (fun bs : List ℕ => ((Encodable.decode (bs.headD 0)).getD ([] : List ℚ)))
          ((fun v : List ℚ => [Encodable.encode v]) v) = v)
    ∧ decrypt_embedding id
        (fun bs : List ℕ => ((Encodable.decode (bs.headD 0)).getD ([] : List ℚ))) id
        (encrypt_embedding id (fun v : List ℚ => [Encodable.encode v]) id [1/2, 3])
      = [1/2, 3] := by
  have hj : ∀ v : List ℚ,
      (fun bs : List ℕ => ((Encodable.decode (bs.headD 0)).getD ([] : List ℚ)))
        ((fun v : List ℚ => [Encodable.encode v]) v) = v := by
    intro v
    simp [Encodable.encodek]
  exact ⟨fun bs => rfl, hj,
    claim_C8 id id (fun v => [Encodable.encode v])
      (fun bs => ((Encodable.decode (bs.headD 0)).getD [])) id id
      (fun bs => rfl) hj (fun bs => rfl) [1/2, 3]⟩

/-! ## Claim C9 -/

/-- `pySplit` never returns an empty list of fields. -/
theorem pySplit_ne_nil (sep : Char) (s : List Char) : pySplit sep s ≠ [] := by
  induction s with
  | nil => simp [pySplit]
  | cons c cs ih =>
    unfold pySplit
    split
    · simp
    · cases h : pySplit sep cs
      · exact absurd h ih
      · simp

/-- The first field of `pySplit` is the prefix before the first
separator. -/
theorem pySplit_headD (sep : Char) (s : List Char) :
    (pySplit sep s).headD [] = s.takeWhile (fun c => c ≠ sep) := by
  induction s with
  | nil => simp [pySplit]
  | cons c cs ih =>
    by_cases hc : c = sep
    · subst hc
      simp [pySplit]
    · cases h : pySplit sep cs with
      | nil => exact absurd h (pySplit_ne_nil _ _)
      | cons t ts =>
        rw [h] at ih
        simp only [pySplit, if_neg hc, h, List.headD_cons, List.takeWhile_cons]
        simp only [List.headD_cons] at ih
        simp [hc, ih]

/-- Splitting a string whose first separator follows a clean prefix
yields the prefix as field 0 and splits the remainder. -/
theorem pySplit_append (pre rest : List Char) (h : ',' ∉ pre) :
    pySplit ',' (pre ++ ',' :: rest) = pre :: pySplit ',' rest := by
  induction pre with
  | nil => simp [pySplit]
  | cons c cs ih =>
    have hc : c ≠ ',' := fun hh => h (by simp [hh])
    have h' : ',' ∉ cs := fun hh => h (by simp [hh])
    simp only [List.cons_append, pySplit, if_neg hc, List.append_eq, ih h']

/-- C9 (amended): for an input with a data-URL prefix before the first
comma, the loader hands `base64.b64decode` the segment strictly between
the first and the second comma — not the entire remainder; content after
a second comma is dropped. -/
theorem claim_C9 :
    ∀ (pre rest : List Char), ',' ∉ pre →
      load_image_payload (pre ++ ',' :: rest)
        = rest.takeWhile (fun c => c ≠ ',') := by
  intro pre rest h
  unfold load_image_payload
  rw [if_pos (by simp), pySplit_append pre rest h]
  simpa using pySplit_headD ',' rest

/-- Counterexample to C9 as stated: on `"a,b,c"` the code decodes
`"b"` while the claim's payload (everything after the first comma)
is `"b,c"`. -/
theorem claim_C9_counterexample :
    load_image_payload ['a', ',', 'b', ',', 'c'] = ['b']
    ∧ spec_payload ['a', ',', 'b', ',', 'c'] = ['b', ',', 'c']
    ∧ load_image_payload ['a', ',', 'b', ',', 'c']
        ≠ spec_payload ['a', ',', 'b', ',', 'c'] := by
  refine ⟨?_, ?_, ?_⟩ <;> decide

/-- Witness for the amended C9 at a concrete data-URL-prefixed input. -/
theorem claim_C9_witness :
    (',' ∉ ['d', 'a', 't', 'a', ':'])
    ∧ load_image_payload (['d', 'a', 't', 'a', ':'] ++ ',' :: ['Q', 'A', ',', 'Z'])
        = ['Q', 'A', ',', 'Z'].takeWhile (fun c => c ≠ ',') := by
  exact ⟨by decide, claim_C9 ['d', 'a', 't', 'a', ':'] ['Q', 'A', ',', 'Z'] (by decide)⟩

/-! ## Claim C10 -/

/-- C10: the face-login endpoint keeps stage outcomes distinguishable:
with an image supplied and a known, enrolled user, each face-specific
error kind from `verify_face` yields a 400 response whose detail embeds
that specific error (and the embedding is injective), while a
non-matching face yields a 401 response embedding the computed
confidence percentage. -/
theorem claim_C10 :
    (∀ (gbe : String → Option UserRec) (vf : UserRec → Except PyErr Verification)
        (email : String) (hb hf : Bool) (u : UserRec) (e : PyErr),
      (!hb && !hf) = false → (hb && hf) = false →
      gbe email = some u → u.face_enrolled = true →
      vf u = .error e → e.faceSpecific = true →
        face_login gbe vf email hb hf = .error ⟨400, .faceVerificationFailed e⟩)
    ∧ (∀ (gbe : String → Option UserRec) (vf : UserRec → Except PyErr Verification)
        (email : String) (hb hf : Bool) (u : UserRec) (v : Verification),
      (!hb && !hf) = false → (hb && hf) = false →
      gbe email = some u → u.face_enrolled = true →
      vf u = .ok v → v.verified = false →
        face_login gbe vf email hb hf = .error ⟨401, .faceAuthFailed v.confidence⟩)
    ∧ (∀ e e' : PyErr,
        Detail.faceVerificationFailed e = Detail.faceVerificationFailed e' → e = e')
    ∧ (∀ (e : PyErr) (c : ℚ), Detail.faceVerificationFailed e ≠ Detail.faceAuthFailed c) := by
  refine ⟨?_, ?_, fun e e' h => by injection h, fun e c h => by cases h⟩
  · intro gbe vf email hb hf u e h1 h2 hg hen hv hfs
    unfold face_login
    rw [h1, h2, hg]
    simp only [Bool.false_eq_true, if_false, hen, Bool.not_true]
    rw [hv]
    simp [hfs]
  · intro gbe vf email hb hf u v h1 h2 hg hen hv hver
    unfold face_login
    rw [h1, h2, hg]
    simp only [Bool.false_eq_true, if_false, hen, Bool.not_true]
    rw [hv]
    simp [hver]

/-- Witness for C10: a low-quality failure yields 400 with the specific
error, a non-matching face yields 401 with its confidence. -/
theorem claim_C10_witness :
    ((!true && !false) = false) ∧ ((true && false) = false)
    ∧ ((fun _ : String => some (⟨1, "a@b.c", true, some "blob"⟩ : UserRec)) "a@b.c"
        = some (⟨1, "a@b.c", true, some "blob"⟩ : UserRec))
    ∧ (⟨1, "a@b.c", true, some "blob"⟩ : UserRec).face_enrolled = true
    ∧ face_login (fun _ => some ⟨1, "a@b.c", true, some "blob"⟩)
        (fun _ => .error .lowQualityFace) "a@b.c" true false
      = .error ⟨400, .faceVerificationFailed .lowQualityFace⟩
    ∧ face_login (fun _ => some ⟨1, "a@b.c", true, some "blob"⟩)
        (fun _ => .ok ⟨false, 55⟩) "a@b.c" true false
      = .error ⟨401, .faceAuthFailed 55⟩ := by
  refine ⟨rfl, rfl, rfl, rfl, ?_, ?_⟩
  · exact claim_C10.1 _ _ "a@b.c" true false ⟨1, "a@b.c", true, some "blob"⟩
      .lowQualityFace rfl rfl rfl rfl rfl rfl
  · exact claim_C10.2.1 _ _ "a@b.c" true false ⟨1, "a@b.c", true, some "blob"⟩
      ⟨false, 55⟩ rfl rfl rfl rfl rfl rfl

end FaceRec
